import Mathlib

/-!
Verification of the calendar-voice-bot server core (`server.js`).

The embedding below translates the pure decision logic of the server:

* `loadEvents` — the calendar-file loader (try/catch around read + JSON.parse);
* `generateId` — `Date.now().toString(36) + Math.random().toString(36).substr(2)`,
  with the clock value and the random tail supplied as inputs;
* `executeAction` — the ADD/LIST/DELETE switch over the loaded event list;
* `selectTranscription` — the confidence-based choice between the English and
  the Hindi recognition attempt in the `/api/voice` handler.

JavaScript strings are modelled as Lean `String`; `s.includes(q)` becomes the
list-infix test on the character lists, `s.toLowerCase()` becomes a character
map (ASCII case mapping, adequate for every input considered here), and the
truthiness test `s && ...` on a string field becomes the non-emptiness test,
since an absent or empty field is falsy and a non-empty string is truthy.
Nondeterministic inputs (clock, RNG, timestamps) are explicit parameters.
-/

namespace CalendarBot

/-- JavaScript `s.includes(q)`: `q` occurs contiguously in `s`. -/
def jsIncludes (s q : String) : Bool :=
  decide (q.toList <:+: s.toList)

/-- JavaScript `s.toLowerCase()` (ASCII case mapping). -/
def jsToLowerCase (s : String) : String :=
  String.mk (s.toList.map Char.toLower)

/-- A calendar event as stored in `calendar.json` (all fields are strings). -/
structure Event where
  id : String
  title : String
  date : String
  time : String
  language : String
  createdAt : String
deriving DecidableEq

/-- The `data` payload of an intent; fields the action does not use are `""`
(in the source they are absent, which is equally falsy). -/
structure IntentData where
  title : String
  date : String
  time : String
  query : String
deriving DecidableEq

/-- A structured intent as returned by the language model. The `action` is kept
as a raw string because the model may emit anything. -/
structure Intent where
  action : String
  language : String
  data : IntentData
  response : String
deriving DecidableEq

/-- State of the backing `calendar.json` file: absent, present but not valid
JSON (so `JSON.parse` throws), or present and parseable as an event list. -/
inductive FileState where
  | absent : FileState
  | corrupt : String → FileState
  | wellFormed : List Event → FileState
deriving DecidableEq

/-- `loadEvents` from the source: read the file and `JSON.parse` it inside a
try/catch whose catch-all returns `[]`. A missing file and unparseable content
both land in the catch, so the function is total and never reports an error. -/
def loadEvents : FileState → List Event
  | .absent => []
  | .corrupt _ => []
  | .wellFormed evs => evs

/-- Digit character of a base-36 digit, as produced by `Number.toString(36)`. -/
def base36Char (n : ℕ) : Char :=
  if n < 10 then Char.ofNat (48 + n) else Char.ofNat (87 + n)

/-- Fuel-driven base-36 digit expansion (most significant digit first). -/
def natToBase36Go : ℕ → ℕ → List Char
  | 0, _ => []
  | fuel + 1, n =>
    if n < 36 then [base36Char n]
    else natToBase36Go fuel (n / 36) ++ [base36Char (n % 36)]

/-- JavaScript `n.toString(36)` for a natural number `n`. -/
def natToBase36 (n : ℕ) : String :=
  String.mk (natToBase36Go (n + 1) n)

/-- `generateId` from the source: `Date.now().toString(36)` concatenated with
the tail of `Math.random().toString(36)`. The clock reading `nowMs` and the
random tail `randTail` are environment inputs. -/
def generateId (nowMs : ℕ) (randTail : String) : String :=
  natToBase36 nowMs ++ randTail

/-- The DELETE_EVENT match test from the source filter:
`(event.time && event.time.includes(query)) || (event.title &&
event.title.toLowerCase().includes(query)) || (event.date &&
event.date.includes(query))`, with `query` already lowercased by the caller. -/
def matchesQuery (query : String) (e : Event) : Bool :=
  (e.time != "" && jsIncludes e.time query) ||
  (e.title != "" && jsIncludes (jsToLowerCase e.title) query) ||
  (e.date != "" && jsIncludes e.date query)

/-- Result of `executeAction`: the returned event list and message, plus the
event list passed to `saveEvents` when a write happened (`none` = no write). -/
structure ExecResult where
  events : List Event
  message : String
  saved : Option (List Event)
deriving DecidableEq

/-- `executeAction` from the source. `events` is what `loadEvents` returned;
`freshId` is the value `generateId()` produced for this call and `nowIso` the
value of `new Date().toISOString()`. The switch falls through to a no-op for
any unrecognized action string. -/
def executeAction (intent : Intent) (events : List Event)
    (freshId nowIso : String) : ExecResult :=
  if intent.action = "ADD_EVENT" then
    let newEvent : Event :=
      { id := freshId
        title := intent.data.title
        date := intent.data.date
        time := intent.data.time
        language := intent.language
        createdAt := nowIso }
    { events := events ++ [newEvent]
      message := intent.response
      saved := some (events ++ [newEvent]) }
  else if intent.action = "LIST_EVENTS" then
    { events := events, message := intent.response, saved := none }
  else if intent.action = "DELETE_EVENT" then
    let query := jsToLowerCase intent.data.query
    let updatedEvents := events.filter (fun e => !(matchesQuery query e))
    let deletedCount := events.length - updatedEvents.length
    { events := updatedEvents
      message :=
        if deletedCount = 0 then
          if intent.language = "hi" then "मुझे वह इवेंट नहीं मिला।"
          else "I couldn't find that event."
        else intent.response
      saved := some updatedEvents }
  else
    { events := events, message := intent.response, saved := none }

/-- One recognition alternative of a Deepgram response: the transcript and its
confidence score. -/
structure RecognitionAlt where
  transcript : String
  confidence : ℚ
deriving DecidableEq

/-- The transcription-selection logic of the `/api/voice` handler: throw when
both attempts returned an error; otherwise default a missing result's
transcript to `""` and confidence to `0` and pick Hindi exactly when its
(defaulted) confidence is strictly greater than the English one. -/
def selectTranscription (en hi : Option RecognitionAlt) :
    Except String (String × String) :=
  if en.isNone && hi.isNone then
    .error "Deepgram transcription failed for both languages"
  else
    let enText := match en with | some r => r.transcript | none => ""
    let hiText := match hi with | some r => r.transcript | none => ""
    let enConfidence : ℚ := match en with | some r => r.confidence | none => 0
    let hiConfidence : ℚ := match hi with | some r => r.confidence | none => 0
    if hiConfidence > enConfidence then .ok (hiText, "hi")
    else .ok (enText, "en")

/-- One step of the server's lifetime: the intent of a request together with
the environment values drawn during it (clock, RNG tail, ISO timestamp). -/
structure ExecInput where
  intent : Intent
  nowMs : ℕ
  randTail : String
  nowIso : String

/-- The stored collection after a sequence of requests: each request loads the
current collection and the next request sees what the previous one left (for
mutating actions that is the saved list, for the others the untouched one —
in both cases `(executeAction ...).events`). -/
def execSeq : List ExecInput → List Event → List Event
  | [], evs => evs
  | inp :: rest, evs =>
      execSeq rest
        (executeAction inp.intent evs (generateId inp.nowMs inp.randTail)
          inp.nowIso).events

/-- The DELETE match rule exactly as the specification words it: the lowercased
query must be a case-insensitive substring of `time`, or a case-insensitive
substring of `title`, or a substring of `date`. Stated for comparison with the
rule the source actually implements (`matchesQuery`). -/
def specDeleteMatch (query : String) (e : Event) : Bool :=
  jsIncludes (jsToLowerCase e.time) (jsToLowerCase query) ||
  jsIncludes (jsToLowerCase e.title) (jsToLowerCase query) ||
  jsIncludes e.date (jsToLowerCase query)

/-- The loader as the specification words it: absence is an empty collection,
corrupt content is a surfaced storage error. Stated for comparison with the
loader the source actually implements (`loadEvents`). -/
def specLoadEvents : FileState → Except String (List Event)
  | .absent => .ok []
  | .corrupt _ => .error "StorageError"
  | .wellFormed evs => .ok evs

/-- C2: executing an ADD_EVENT intent appends exactly one event built from the
intent's data, language, the fresh id and timestamp; the appended collection is
persisted and the intent's response message is returned unchanged. -/
theorem addEvent_appends (intent : Intent) (events : List Event)
    (freshId nowIso : String) (h : intent.action = "ADD_EVENT") :
    (executeAction intent events freshId nowIso).events
      = events ++ [{ id := freshId, title := intent.data.title,
                     date := intent.data.date, time := intent.data.time,
                     language := intent.language, createdAt := nowIso }] ∧
    (executeAction intent events freshId nowIso).events.length
      = events.length + 1 ∧
    (executeAction intent events freshId nowIso).saved
      = some ((executeAction intent events freshId nowIso).events) ∧
    (executeAction intent events freshId nowIso).message = intent.response := by
  simp [executeAction, h]

theorem addEvent_appends_witness :
    (executeAction ⟨"ADD_EVENT", "en", ⟨"Meeting", "2025-01-01", "09:00", ""⟩, "done"⟩
        [] "id1" "T1").events
      = [⟨"id1", "Meeting", "2025-01-01", "09:00", "en", "T1"⟩] ∧
    (executeAction ⟨"ADD_EVENT", "en", ⟨"Meeting", "2025-01-01", "09:00", ""⟩, "done"⟩
        [] "id1" "T1").message = "done" := by
  have h := addEvent_appends ⟨"ADD_EVENT", "en", ⟨"Meeting", "2025-01-01", "09:00", ""⟩, "done"⟩
    [] "id1" "T1" rfl
  exact ⟨by rw [h.1]; rfl, h.2.2.2⟩

/-- C4: a LIST_EVENTS intent is a pure read. -/
theorem listEvents_noop (intent : Intent) (events : List Event)
    (freshId nowIso : String) (h : intent.action = "LIST_EVENTS") :
    executeAction intent events freshId nowIso
      = { events := events, message := intent.response, saved := none } := by
  simp [executeAction, h]

theorem listEvents_noop_witness :
    executeAction ⟨"LIST_EVENTS", "en", ⟨"", "", "", ""⟩, "here"⟩
        [⟨"1", "a", "b", "c", "en", "t"⟩] "f" "n"
      = { events := [⟨"1", "a", "b", "c", "en", "t"⟩], message := "here",
          saved := none } :=
  listEvents_noop _ _ _ _ rfl

/-- C10: an unrecognized action is a read-only no-op. -/
theorem unknownAction_noop (intent : Intent) (events : List Event)
    (freshId nowIso : String)
    (h1 : intent.action ≠ "ADD_EVENT") (h2 : intent.action ≠ "LIST_EVENTS")
    (h3 : intent.action ≠ "DELETE_EVENT") :
    executeAction intent events freshId nowIso
      = { events := events, message := intent.response, saved := none } := by
  simp [executeAction, h1, h2, h3]

theorem unknownAction_noop_witness :
    executeAction ⟨"RESCHEDULE_EVENT", "en", ⟨"", "", "", ""⟩, "hm"⟩
        [⟨"1", "a", "b", "c", "en", "t"⟩] "f" "n"
      = { events := [⟨"1", "a", "b", "c", "en", "t"⟩], message := "hm",
          saved := none } :=
  unknownAction_noop _ _ _ _ (by decide) (by decide) (by decide)

/-- C5: with both recognition attempts present, selection is a deterministic
function of the two confidence scores: Hindi wins exactly when its score is
strictly greater, and a tie goes to English. -/
theorem selectTranscription_byConfidence (enT hiT : String) (cEn cHi : ℚ) :
    (cEn < cHi →
      selectTranscription (some ⟨enT, cEn⟩) (some ⟨hiT, cHi⟩)
        = .ok (hiT, "hi")) ∧
    (cHi ≤ cEn →
      selectTranscription (some ⟨enT, cEn⟩) (some ⟨hiT, cHi⟩)
        = .ok (enT, "en")) := by
  constructor
  · intro h
    simp [selectTranscription, h]
  · intro h
    simp [selectTranscription, not_lt.mpr h]

theorem selectTranscription_byConfidence_witness :
    selectTranscription (some ⟨"a", 1⟩) (some ⟨"b", 2⟩) = .ok ("b", "hi") ∧
    selectTranscription (some ⟨"c", 2⟩) (some ⟨"d", 2⟩) = .ok ("c", "en") :=
  ⟨(selectTranscription_byConfidence "a" "b" 1 2).1 (by norm_num),
   (selectTranscription_byConfidence "c" "d" 2 2).2 (le_refl 2)⟩

/-- C1 counterexample: the spec's rule says a query equal to the time "AM" (a
case-insensitive substring of the time) removes the event, but the source
compares the lowercased query against the raw, un-lowercased time, so the
event survives the DELETE execution. -/
theorem deleteMatch_counterexample :
    specDeleteMatch "AM" ⟨"1", "x", "y", "AM", "en", "t"⟩ = true ∧
    (executeAction ⟨"DELETE_EVENT", "en", ⟨"", "", "", "AM"⟩, "resp"⟩
        [⟨"1", "x", "y", "AM", "en", "t"⟩] "f" "n").events
      = [⟨"1", "x", "y", "AM", "en", "t"⟩] := by decide

/-- C1 amended: executing DELETE_EVENT keeps exactly the loaded events that
fail the source's match rule: the lowercased query is a plain substring of the
raw `time`, or a substring of the lowercased `title`, or a substring of the
raw `date`, each guarded by that field being non-empty. -/
theorem deleteEvent_membership (intent : Intent) (events : List Event)
    (freshId nowIso : String) (h : intent.action = "DELETE_EVENT") (e : Event) :
    e ∈ (executeAction intent events freshId nowIso).events ↔
      e ∈ events ∧
      ¬((e.time ≠ "" ∧ (jsToLowerCase intent.data.query).toList <:+: e.time.toList) ∨
        (e.title ≠ "" ∧
          (jsToLowerCase intent.data.query).toList <:+: (jsToLowerCase e.title).toList) ∨
        (e.date ≠ "" ∧ (jsToLowerCase intent.data.query).toList <:+: e.date.toList)) := by
  simp [executeAction, h, List.mem_filter, matchesQuery, jsIncludes, bne_iff_ne,
    decide_eq_true_eq]
  tauto

theorem deleteEvent_membership_witness :
    ⟨"1", "x", "y", "AM", "en", "t"⟩
        ∈ (executeAction ⟨"DELETE_EVENT", "en", ⟨"", "", "", "AM"⟩, "resp"⟩
            [⟨"1", "x", "y", "AM", "en", "t"⟩] "f" "n").events := by
  refine (deleteEvent_membership ⟨"DELETE_EVENT", "en", ⟨"", "", "", "AM"⟩, "resp"⟩
    [⟨"1", "x", "y", "AM", "en", "t"⟩] "f" "n" rfl _).mpr ⟨by decide, by decide⟩

/-- C3: a DELETE_EVENT whose query matches no loaded event leaves the
collection unchanged and swaps the message for the fixed localized not-found
string (Hindi for language `hi`, English otherwise); when at least one event
matches, the intent's own response message is kept. -/
theorem deleteEvent_notFound (intent : Intent) (events : List Event)
    (freshId nowIso : String) (h : intent.action = "DELETE_EVENT") :
    ((∀ e ∈ events, matchesQuery (jsToLowerCase intent.data.query) e = false) →
      (executeAction intent events freshId nowIso).events = events ∧
      (executeAction intent events freshId nowIso).message
        = (if intent.language = "hi" then "मुझे वह इवेंट नहीं मिला।"
           else "I couldn't find that event.")) ∧
    ((∃ e ∈ events, matchesQuery (jsToLowerCase intent.data.query) e = true) →
      (executeAction intent events freshId nowIso).message = intent.response) := by
  constructor
  · intro hnone
    have hfilter :
        events.filter (fun e => !(matchesQuery (jsToLowerCase intent.data.query) e))
          = events :=
      List.filter_eq_self.mpr (fun a ha => by simp [hnone a ha])
    simp [executeAction, h, hfilter]
  · rintro ⟨e, he, hmatch⟩
    have hlt :
        (events.filter
            (fun e => !(matchesQuery (jsToLowerCase intent.data.query) e))).length
          < events.length :=
      List.length_filter_lt_length_iff_exists.mpr ⟨e, he, by simp [hmatch]⟩
    have hne : events.length
        - (events.filter
            (fun e => !(matchesQuery (jsToLowerCase intent.data.query) e))).length
        ≠ 0 := by omega
    simp [executeAction, h, hne]

theorem deleteEvent_notFound_witness :
    (executeAction ⟨"DELETE_EVENT", "hi", ⟨"", "", "", "zq"⟩, "resp"⟩
        [⟨"1", "a", "b", "c", "en", "t"⟩] "f" "n").events
      = [⟨"1", "a", "b", "c", "en", "t"⟩] ∧
    (executeAction ⟨"DELETE_EVENT", "hi", ⟨"", "", "", "zq"⟩, "resp"⟩
        [⟨"1", "a", "b", "c", "en", "t"⟩] "f" "n").message
      = "मुझे वह इवेंट नहीं मिला।" ∧
    (executeAction ⟨"DELETE_EVENT", "en", ⟨"", "", "", "a"⟩, "resp"⟩
        [⟨"1", "a", "b", "c", "en", "t"⟩] "f" "n").message = "resp" := by
  have h1 := (deleteEvent_notFound ⟨"DELETE_EVENT", "hi", ⟨"", "", "", "zq"⟩, "resp"⟩
    [⟨"1", "a", "b", "c", "en", "t"⟩] "f" "n" rfl).1 (by decide)
  have h2 := (deleteEvent_notFound ⟨"DELETE_EVENT", "en", ⟨"", "", "", "a"⟩, "resp"⟩
    [⟨"1", "a", "b", "c", "en", "t"⟩] "f" "n" rfl).2
    ⟨⟨"1", "a", "b", "c", "en", "t"⟩, by decide, by decide⟩
  exact ⟨h1.1, by simpa using h1.2, h2⟩

/-- C9: a DELETE_EVENT with the empty query removes every event that has at
least one non-empty field among time, title and date, because the empty string
occurs in every string; if every loaded event has such a field the resulting
collection is empty. -/
theorem deleteEvent_emptyQuery (intent : Intent) (events : List Event)
    (freshId nowIso : String) (h : intent.action = "DELETE_EVENT")
    (hq : intent.data.query = "")
    (hne : ∀ e ∈ events, e.time ≠ "" ∨ e.title ≠ "" ∨ e.date ≠ "") :
    (executeAction intent events freshId nowIso).events = [] := by
  have hlow : jsToLowerCase intent.data.query = "" := by rw [hq]; decide
  have hfilter :
      events.filter (fun e => !(matchesQuery (jsToLowerCase intent.data.query) e))
        = [] := by
    refine List.filter_eq_nil_iff.mpr (fun e he => ?_)
    rcases hne e he with ht | ht | ht <;>
      simp [hlow, matchesQuery, jsIncludes, bne_iff_ne, ht, List.nil_infix,
        show ("" : String).toList = [] from rfl]
  simp [executeAction, h, hfilter]

theorem deleteEvent_emptyQuery_witness :
    (executeAction ⟨"DELETE_EVENT", "en", ⟨"", "", "", ""⟩, "resp"⟩
        [⟨"1", "a", "b", "c", "en", "t"⟩, ⟨"2", "", "", "16:00", "hi", "u"⟩]
        "f" "n").events = [] :=
  deleteEvent_emptyQuery ⟨"DELETE_EVENT", "en", ⟨"", "", "", ""⟩, "resp"⟩
    [⟨"1", "a", "b", "c", "en", "t"⟩, ⟨"2", "", "", "16:00", "hi", "u"⟩]
    "f" "n" rfl rfl (by decide)

/-- C6 counterexample: the English attempt fails and the Hindi attempt
succeeds with confidence 0 (the defaulted English confidence is also 0, and
`0 > 0` is false), so the handler does NOT use the surviving Hindi result: it
returns the empty defaulted English transcript tagged `en`. -/
theorem transcription_singleFailure_counterexample :
    selectTranscription none (some ⟨"नमस्ते", 0⟩) ≠ .ok ("नमस्ते", "hi") ∧
    selectTranscription none (some ⟨"नमस्ते", 0⟩) = .ok ("", "en") := by
  constructor
  · intro hcontra
    simp [selectTranscription] at hcontra
  · rfl

/-- C6 amended: both attempts failing raises the transcription error; when
only the Hindi attempt fails, the English result is used whenever its
confidence is non-negative; when only the English attempt fails, the Hindi
result is used exactly when its confidence is strictly positive, and
otherwise the empty defaulted English transcript tagged `en` is returned. -/
theorem transcription_failure_handling (t : String) (c : ℚ) :
    (selectTranscription none none
      = .error "Deepgram transcription failed for both languages") ∧
    (0 ≤ c → selectTranscription (some ⟨t, c⟩) none = .ok (t, "en")) ∧
    (0 < c → selectTranscription none (some ⟨t, c⟩) = .ok (t, "hi")) ∧
    (c ≤ 0 → selectTranscription none (some ⟨t, c⟩) = .ok ("", "en")) := by
  refine ⟨rfl, fun h => ?_, fun h => ?_, fun h => ?_⟩
  · simp [selectTranscription, not_lt.mpr h]
  · simp [selectTranscription, h]
  · simp [selectTranscription, not_lt.mpr h]

theorem transcription_failure_handling_witness :
    (selectTranscription none none
      = .error "Deepgram transcription failed for both languages") ∧
    selectTranscription (some ⟨"hello", 0⟩) none = .ok ("hello", "en") ∧
    selectTranscription none (some ⟨"hello", 1⟩) = .ok ("hello", "hi") ∧
    selectTranscription none (some ⟨"hello", 0⟩) = .ok ("", "en") :=
  ⟨(transcription_failure_handling "hello" 0).1,
   (transcription_failure_handling "hello" 0).2.1 le_rfl,
   (transcription_failure_handling "hello" 1).2.2.1 one_pos,
   (transcription_failure_handling "hello" 0).2.2.2 le_rfl⟩

/-- C7 counterexample: on corrupt content the spec demands a surfaced storage
error, but the source's catch-all swallows the `JSON.parse` failure and
silently yields the empty collection; `loadEvents` is total and never reports
any error. -/
theorem loadEvents_corrupt_counterexample :
    loadEvents (.corrupt "this is not JSON") = [] ∧
    specLoadEvents (.corrupt "this is not JSON") = .error "StorageError" :=
  ⟨rfl, rfl⟩

/-- C7 amended: `loadEvents` never fails: an absent file yields the empty
collection, corrupt (unparseable) content also silently yields the empty
collection, and well-formed content yields its events. -/
theorem loadEvents_total (s : String) (evs : List Event) :
    loadEvents .absent = [] ∧ loadEvents (.corrupt s) = [] ∧
    loadEvents (.wellFormed evs) = evs :=
  ⟨rfl, rfl, rfl⟩

/-- C8 counterexample: two ADD_EVENT executions during the same clock
millisecond and with the same random tail generate the same id, so two
distinct events end up carrying equal ids — the generator gives no lifetime
uniqueness guarantee. -/
theorem generateId_collision_counterexample :
    (execSeq
      [⟨⟨"ADD_EVENT", "en", ⟨"Meeting A", "2025-01-01", "09:00", ""⟩, "ok"⟩,
         1000, "zz", "T1"⟩,
       ⟨⟨"ADD_EVENT", "en", ⟨"Meeting B", "2025-01-02", "10:00", ""⟩, "ok"⟩,
         1000, "zz", "T2"⟩] []).map Event.id = ["rszz", "rszz"] ∧
    (execSeq
      [⟨⟨"ADD_EVENT", "en", ⟨"Meeting A", "2025-01-01", "09:00", ""⟩, "ok"⟩,
         1000, "zz", "T1"⟩,
       ⟨⟨"ADD_EVENT", "en", ⟨"Meeting B", "2025-01-02", "10:00", ""⟩, "ok"⟩,
         1000, "zz", "T2"⟩] []).map Event.title = ["Meeting A", "Meeting B"] := by
  decide

/-- Each single execution can only keep existing ids or append the freshly
generated one: its stored id list is a sublist of the input ids plus the
fresh id. -/
theorem executeAction_ids_sublist (intent : Intent) (events : List Event)
    (freshId nowIso : String) :
    ((executeAction intent events freshId nowIso).events.map Event.id).Sublist
      (events.map Event.id ++ [freshId]) := by
  by_cases h1 : intent.action = "ADD_EVENT"
  · simp [executeAction, h1]
  · by_cases h2 : intent.action = "LIST_EVENTS"
    · simp only [executeAction, h1, if_false, h2, if_true, if_neg, if_pos]
      exact List.sublist_append_left _ _
    · by_cases h3 : intent.action = "DELETE_EVENT"
      · simp only [executeAction, h1, h2, h3, if_false, if_true, if_neg, if_pos]
        exact (((List.filter_sublist _).map Event.id).trans
          (List.sublist_append_left _ _))
      · simp only [executeAction, h1, h2, h3, if_false, if_neg]
        exact List.sublist_append_left _ _

/-- Across a whole execution sequence, the stored id list is a sublist of the
initial ids followed by the generated ids, in order. -/
theorem execSeq_ids_sublist (inputs : List ExecInput) (events : List Event) :
    ((execSeq inputs events).map Event.id).Sublist
      (events.map Event.id
        ++ inputs.map (fun i => generateId i.nowMs i.randTail)) := by
  induction inputs generalizing events with
  | nil => simp [execSeq]
  | cons inp rest ih =>
    have h1 := executeAction_ids_sublist inp.intent events
      (generateId inp.nowMs inp.randTail) inp.nowIso
    have h2 := ih (executeAction inp.intent events
      (generateId inp.nowMs inp.randTail) inp.nowIso).events
    have h3 := h2.trans (h1.append (List.Sublist.refl _))
    rw [List.append_assoc] at h3
    simpa [execSeq] using h3

/-- C8 amended: event ids stay pairwise distinct across any execution
sequence provided the environment never generates a colliding id: if the
initial ids together with the generated ids are pairwise distinct, every two
distinct events in the resulting store carry distinct ids (and a deleted id
can only reappear if the generator emits it again). -/
theorem eventIds_nodup (inputs : List ExecInput) (events : List Event)
    (h : (events.map Event.id
      ++ inputs.map (fun i => generateId i.nowMs i.randTail)).Nodup) :
    ((execSeq inputs events).map Event.id).Nodup :=
  (execSeq_ids_sublist inputs events).nodup h

theorem eventIds_nodup_witness :
    (([] : List Event).map Event.id
      ++ ([⟨⟨"ADD_EVENT", "en", ⟨"A", "d", "t", ""⟩, "ok"⟩, 1000, "aa", "T1"⟩,
           ⟨⟨"ADD_EVENT", "en", ⟨"B", "d", "t", ""⟩, "ok"⟩, 1001, "aa", "T2"⟩] :
           List ExecInput).map
          (fun i => generateId i.nowMs i.randTail)).Nodup ∧
    ((execSeq
      [⟨⟨"ADD_EVENT", "en", ⟨"A", "d", "t", ""⟩, "ok"⟩, 1000, "aa", "T1"⟩,
       ⟨⟨"ADD_EVENT", "en", ⟨"B", "d", "t", ""⟩, "ok"⟩, 1001, "aa", "T2"⟩]
      []).map Event.id).Nodup :=
  ⟨by decide,
   eventIds_nodup
     [⟨⟨"ADD_EVENT", "en", ⟨"A", "d", "t", ""⟩, "ok"⟩, 1000, "aa", "T1"⟩,
      ⟨⟨"ADD_EVENT", "en", ⟨"B", "d", "t", ""⟩, "ok"⟩, 1001, "aa", "T2"⟩]
     [] (by decide)⟩

end CalendarBot
